import Mathlib

noncomputable section

/-!
Shallow embedding of the LifeProg emission simulation
(src/source_environ_1.0.1.ts in namespace V1 and
src/source_environ_1.0.2.ts in namespace V2).

Real numbers stand for JavaScript numbers; the ambient random number
generator is made explicit, so functions that call Math.random receive a
stream of uniform draws as an argument; in-place mutation of the two
records becomes a returned pair of updated records; Date.now() becomes an
explicit time argument.
-/

/-- Stefan-Boltzmann constant, identical in both source files. -/
def STEFAN_BOLTZMAN_CONSTANT : ℝ := 5.670374419e-8

/-- Real cube root with the sign convention of JavaScript Math.cbrt: the
cube root of a negative number is the negation of the cube root of its
absolute value. -/
def cbrt (x : ℝ) : ℝ :=
  if x < 0 then -((-x) ^ ((1 : ℝ) / 3)) else x ^ ((1 : ℝ) / 3)

/-- calculateSurfaceArea, identical in both source files: treats the
argument as a sphere volume and returns the sphere surface area, with PI
hard-coded as the literal 3.14159. -/
def calculateSurfaceArea (volume : ℝ) : ℝ :=
  let PI : ℝ := 3.14159
  let radius := cbrt (volume / ((4 / 3) * PI))
  4 * PI * radius ^ 2

/-- SourceAccount record, identical in both source files. -/
structure SourceAccount where
  balance : ℝ
  emissionRate : ℝ
  lastUpdateTime : ℝ
  initialSupply : ℝ

namespace V1

/-- Environment record of source_environ_1.0.1.ts: only a balance. -/
structure Environment where
  balance : ℝ

/-- calculateEmissionRate from source_environ_1.0.1.ts (the sourceBalance
argument is unused there as well). -/
def calculateEmissionRate (surfaceArea surfaceTemperature sourceBalance : ℝ) : ℝ :=
  let desiredRatio : ℝ := 4.65e20
  STEFAN_BOLTZMAN_CONSTANT * surfaceArea * surfaceTemperature ^ 4 / desiredRatio

/-- calculateEmissionAmount from source_environ_1.0.1.ts. -/
def calculateEmissionAmount (source : SourceAccount) (elapsedTime : ℝ) : ℝ :=
  let surfaceArea := calculateSurfaceArea source.balance
  let surfaceTemperature := source.balance
  let emissionRate := calculateEmissionRate surfaceArea surfaceTemperature source.balance
  emissionRate * elapsedTime

/-- updateSourceAndEnvironment from source_environ_1.0.1.ts. -/
def updateSourceAndEnvironment (source : SourceAccount) (environment : Environment)
    (currentTime : ℝ) : SourceAccount × Environment :=
  let elapsedTime := (currentTime - source.lastUpdateTime) / 1000
  let emissionAmount := calculateEmissionAmount source elapsedTime
  ({ source with
      balance := source.balance - emissionAmount
      lastUpdateTime := currentTime },
   { environment with balance := environment.balance + emissionAmount })

/-- initializeSourceAccount from source_environ_1.0.1.ts, with Date.now()
as the explicit argument now. -/
def initializeSourceAccount (initialSupply : ℝ) (now : ℝ) : SourceAccount :=
  let surfaceArea := calculateSurfaceArea initialSupply
  let surfaceTemperature := initialSupply
  let emissionRate := calculateEmissionRate surfaceArea surfaceTemperature initialSupply
  { balance := initialSupply
    emissionRate := emissionRate
    lastUpdateTime := now
    initialSupply := initialSupply }

/-- initializeEnvironment from source_environ_1.0.1.ts. -/
def initializeEnvironment : Environment :=
  { balance := 0 }

end V1

namespace V2

/-- KAPPA shape constant from source_environ_1.0.2.ts. -/
def KAPPA : ℝ := 3.5

/-- Environment record of source_environ_1.0.2.ts: a balance and an array
of level balances. -/
structure Environment where
  balance : ℝ
  levels : List ℝ

/-- kappaRandom from source_environ_1.0.2.ts. The three Math.random calls
per sample are made explicit: the draw stream is an argument holding one
triple of uniform draws per sample, so numSamples is the stream length. -/
def kappaRandom (kappa : ℝ) (draws : List (ℝ × ℝ × ℝ)) : List ℝ :=
  draws.map fun d =>
    let x := d.1 ^ (-1 / kappa) - 1
    let y := d.2.1 ^ (-1 / kappa) - 1
    let z := d.2.2 ^ (-1 / kappa) - 1
    (x + y + z) / 3

/-- maxwellBoltzmannProbability from source_environ_1.0.2.ts (never called
by the update path; included for completeness). -/
def maxwellBoltzmannProbability (energy temperature : ℝ) : ℝ :=
  Real.sqrt (energy / (Real.pi * temperature ^ 3)) * Real.exp (-energy / temperature)

/-- calculateEmissionRate from source_environ_1.0.2.ts. -/
def calculateEmissionRate (surfaceArea surfaceTemperature : ℝ) : ℝ :=
  STEFAN_BOLTZMAN_CONSTANT * surfaceArea * surfaceTemperature ^ 4 / 4.65e20

/-- updateSourceAndEnvironment from source_environ_1.0.2.ts. The
kappaRandom(KAPPA, 100) call consumes the explicit draw stream, which in
the program always has length 100. The forEach that adds into
environment.levels[index] for each index of the normalized distribution is
rendered with zipWith; entries of levels beyond the length of the
distribution stay unchanged, exactly as in the source whenever levels is
at least as long as the distribution (in the program both have length
100). -/
def updateSourceAndEnvironment (source : SourceAccount) (environment : Environment)
    (currentTime : ℝ) (draws : List (ℝ × ℝ × ℝ)) : SourceAccount × Environment :=
  let elapsedTime := (currentTime - source.lastUpdateTime) / 1000
  let surfaceArea := calculateSurfaceArea source.balance
  let emissionAmount := calculateEmissionRate surfaceArea source.balance * elapsedTime
  let levelDistribution := kappaRandom KAPPA draws
  let totalDistribution := levelDistribution.foldl (fun sum val => sum + val) 0
  let normalizedDistribution := levelDistribution.map fun val => val / totalDistribution
  let newLevels :=
    (environment.levels.zipWith (fun lvl val => lvl + val * emissionAmount)
        normalizedDistribution)
      ++ environment.levels.drop normalizedDistribution.length
  ({ source with
      balance := source.balance - emissionAmount
      lastUpdateTime := currentTime },
   { balance := environment.balance + emissionAmount
     levels := newLevels })

/-- initializeSourceAccount from source_environ_1.0.2.ts, with Date.now()
as the explicit argument now. -/
def initializeSourceAccount (initialSupply : ℝ) (now : ℝ) : SourceAccount :=
  let surfaceArea := calculateSurfaceArea initialSupply
  let emissionRate := calculateEmissionRate surfaceArea initialSupply
  { balance := initialSupply
    emissionRate := emissionRate
    lastUpdateTime := now
    initialSupply := initialSupply }

/-- initializeEnvironment from source_environ_1.0.2.ts. -/
def initializeEnvironment : Environment :=
  { balance := 0, levels := List.replicate 100 0 }

/-- One simulation run: the external driver loop of the script, calling
advance once per tick with that tick current time and the triples of
uniform draws its kappaRandom call consumes. -/
def runAdvances (source : SourceAccount) (environment : Environment) :
    List (ℝ × List (ℝ × ℝ × ℝ)) → SourceAccount × Environment
  | [] => (source, environment)
  | call :: rest =>
    let p := updateSourceAndEnvironment source environment call.1 call.2
    runAdvances p.1 p.2 rest

end V2

/-- All three uniform draws of a triple lie in the open interval (0, 1),
the range the spec prescribes for the kappa sampler draws. -/
def goodTriple (d : ℝ × ℝ × ℝ) : Prop :=
  d.1 ∈ Set.Ioo (0 : ℝ) 1 ∧ d.2.1 ∈ Set.Ioo (0 : ℝ) 1 ∧ d.2.2 ∈ Set.Ioo (0 : ℝ) 1

/-- The surface-area formula exactly as the spec states it, with pi the
mathematical constant: radius = cbrt(volume / ((4/3) pi)), area =
4 pi radius^2. Stated for comparison with calculateSurfaceArea. -/
def specSurfaceAreaPi (volume : ℝ) : ℝ :=
  4 * Real.pi * cbrt (volume / ((4 / 3) * Real.pi)) ^ 2

/-- The spec surface-area formula with the literal 3.14159 the code uses in
place of pi. Stated for comparison with calculateSurfaceArea. -/
def specSurfaceAreaLiteral (volume : ℝ) : ℝ :=
  4 * 3.14159 * cbrt (volume / ((4 / 3) * 3.14159)) ^ 2

/-- C1 conservation: for both versions of updateSourceAndEnvironment, the
amount subtracted from the source balance is exactly the amount added to
the environment balance, so the previous source balance equals the new
source balance plus the gain in environment balance. -/
theorem advance_conserves_total_balance :
    (∀ (s : SourceAccount) (e : V1.Environment) (t : ℝ),
      s.balance =
        ((V1.updateSourceAndEnvironment s e t).1).balance +
          (((V1.updateSourceAndEnvironment s e t).2).balance - e.balance)) ∧
    (∀ (s : SourceAccount) (e : V2.Environment) (t : ℝ) (draws : List (ℝ × ℝ × ℝ)),
      s.balance =
        ((V2.updateSourceAndEnvironment s e t draws).1).balance +
          (((V2.updateSourceAndEnvironment s e t draws).2).balance - e.balance)) := by
  constructor
  · intro s e t
    simp [V1.updateSourceAndEnvironment]
  · intro s e t draws
    simp [V2.updateSourceAndEnvironment]

/-- C4 zero-elapsed idempotence: advancing with currentTime equal to
lastUpdateTime leaves both balances unchanged in both versions, and a
second advance at the same timestamp is a no-op on both balances. -/
theorem advance_same_time_fixes_balances :
    (∀ (s : SourceAccount) (e : V1.Environment),
      ((V1.updateSourceAndEnvironment s e s.lastUpdateTime).1).balance = s.balance ∧
      ((V1.updateSourceAndEnvironment s e s.lastUpdateTime).2).balance = e.balance) ∧
    (∀ (s : SourceAccount) (e : V2.Environment) (draws : List (ℝ × ℝ × ℝ)),
      ((V2.updateSourceAndEnvironment s e s.lastUpdateTime draws).1).balance = s.balance ∧
      ((V2.updateSourceAndEnvironment s e s.lastUpdateTime draws).2).balance = e.balance) ∧
    (∀ (s : SourceAccount) (e : V2.Environment) (t : ℝ) (d d2 : List (ℝ × ℝ × ℝ)),
      ((V2.updateSourceAndEnvironment (V2.updateSourceAndEnvironment s e t d).1
          (V2.updateSourceAndEnvironment s e t d).2 t d2).1).balance =
        ((V2.updateSourceAndEnvironment s e t d).1).balance ∧
      ((V2.updateSourceAndEnvironment (V2.updateSourceAndEnvironment s e t d).1
          (V2.updateSourceAndEnvironment s e t d).2 t d2).2).balance =
        ((V2.updateSourceAndEnvironment s e t d).2).balance) := by
  refine ⟨fun s e => ?_, fun s e draws => ?_, fun s e t d d2 => ?_⟩
  · constructor <;>
      simp [V1.updateSourceAndEnvironment, V1.calculateEmissionAmount]
  · constructor <;>
      simp [V2.updateSourceAndEnvironment]
  · constructor <;>
      simp [V2.updateSourceAndEnvironment]

/-- C9 amended: neither version of updateSourceAndEnvironment ever writes
the emissionRate field; after an advance it still holds the value set at
construction, not a rate recomputed from the current balance. -/
theorem advance_keeps_emissionRate :
    (∀ (s : SourceAccount) (e : V1.Environment) (t : ℝ),
      ((V1.updateSourceAndEnvironment s e t).1).emissionRate = s.emissionRate) ∧
    (∀ (s : SourceAccount) (e : V2.Environment) (t : ℝ) (draws : List (ℝ × ℝ × ℝ)),
      ((V2.updateSourceAndEnvironment s e t draws).1).emissionRate = s.emissionRate) := by
  constructor
  · intro s e t
    simp [V1.updateSourceAndEnvironment]
  · intro s e t draws
    simp [V2.updateSourceAndEnvironment]

/-- C8 evaluation at the failing input: kappaRandom applies the power
transform to a raw draw of exactly 0 unchanged - there is no guard, no
retry, and the output still has one sample per input triple. In
JavaScript, Math.pow(0, -1/KAPPA) is Infinity, so this zero draw
propagates as an infinite sample. -/
theorem kappaRandom_consumes_zero_draw :
    V2.kappaRandom V2.KAPPA [(0, 1 / 2, 1 / 2)] =
      [(((0 : ℝ) ^ (-1 / V2.KAPPA) - 1) + ((1 / 2 : ℝ) ^ (-1 / V2.KAPPA) - 1) +
          ((1 / 2 : ℝ) ^ (-1 / V2.KAPPA) - 1)) / 3] ∧
    (V2.kappaRandom V2.KAPPA [(0, 1 / 2, 1 / 2)]).length = 1 := by
  constructor
  · simp [V2.kappaRandom]
  · simp [V2.kappaRandom]

/-- The cube root of 1 is 1. -/
theorem cbrt_one : cbrt 1 = 1 := by
  norm_num [cbrt]

/-- The cube root of 0 is 0. -/
theorem cbrt_zero : cbrt 0 = 0 := by
  norm_num [cbrt, Real.zero_rpow]

/-- On nonnegative inputs cbrt is the real power 1/3. -/
theorem cbrt_eq_rpow {x : ℝ} (hx : 0 ≤ x) : cbrt x = x ^ ((1 : ℝ) / 3) := by
  unfold cbrt
  rw [if_neg (not_lt.mpr hx)]

/-- The cube root of a positive number is positive. -/
theorem cbrt_pos {x : ℝ} (hx : 0 < x) : 0 < cbrt x := by
  rw [cbrt_eq_rpow hx.le]
  exact Real.rpow_pos_of_pos hx _

/-- cbrt is strictly monotone on nonnegative inputs. -/
theorem cbrt_lt_cbrt {x y : ℝ} (hx : 0 ≤ x) (hxy : x < y) : cbrt x < cbrt y := by
  rw [cbrt_eq_rpow hx, cbrt_eq_rpow (hx.trans hxy.le)]
  exact Real.rpow_lt_rpow hx hxy (by norm_num)

/-- At the anchor volume 4*3.14159/3 the sphere radius is exactly 1, so the
surface area evaluates to the rational number 4*3.14159. -/
theorem surfaceArea_at_anchor : calculateSurfaceArea (4 * 3.14159 / 3) = 4 * 3.14159 := by
  have h1 : (4 * 3.14159 / 3 : ℝ) / ((4 / 3) * 3.14159) = 1 := by norm_num
  simp only [calculateSurfaceArea]
  rw [h1, cbrt_one]
  norm_num

/-- C2 evaluation at the failing input: with balance 4*3.14159/3 (chosen so
the cube root evaluates exactly) and a large enough elapsed interval, the
computed emission exceeds the whole balance and updateSourceAndEnvironment
stores a strictly negative source balance: nothing clamps at zero. -/
theorem advance_stores_negative_balance :
    ((V2.updateSourceAndEnvironment
        { balance := 4 * 3.14159 / 3, emissionRate := 0, lastUpdateTime := 0,
          initialSupply := 4 * 3.14159 / 3 }
        V2.initializeEnvironment 1e29 []).1).balance < 0 := by
  simp only [V2.updateSourceAndEnvironment, V2.calculateEmissionRate]
  simp only [surfaceArea_at_anchor]
  norm_num [STEFAN_BOLTZMAN_CONSTANT]

/-- C3 evaluation at the failing input: when the clock goes backward
(elapsedSeconds = -1), the computed emission amount of version 1.0.1 is
strictly negative rather than 0, and the version 1.0.2 update run with a
currentTime 1000 ms earlier than lastUpdateTime strictly increases the
source balance instead of leaving it unchanged. -/
theorem emission_negative_when_clock_goes_backward :
    V1.calculateEmissionAmount
      { balance := 4 * 3.14159 / 3, emissionRate := 0, lastUpdateTime := 1000,
        initialSupply := 4 * 3.14159 / 3 } (-1) < 0 ∧
    4 * 3.14159 / 3 <
      ((V2.updateSourceAndEnvironment
          { balance := 4 * 3.14159 / 3, emissionRate := 0, lastUpdateTime := 1000,
            initialSupply := 4 * 3.14159 / 3 }
          V2.initializeEnvironment 0 []).1).balance := by
  constructor
  · simp only [V1.calculateEmissionAmount, V1.calculateEmissionRate]
    simp only [surfaceArea_at_anchor]
    norm_num [STEFAN_BOLTZMAN_CONSTANT]
  · simp only [V2.updateSourceAndEnvironment, V2.calculateEmissionRate]
    simp only [surfaceArea_at_anchor]
    norm_num [STEFAN_BOLTZMAN_CONSTANT]

/-- C6 counterexample: at the positive anchor volume the surface area the
code computes (with its literal 3.14159) differs from the spec formula
taken with pi the mathematical constant. -/
theorem surfaceArea_differs_from_pi_formula :
    (0 : ℝ) < 4 * 3.14159 / 3 ∧
    calculateSurfaceArea (4 * 3.14159 / 3) ≠ specSurfaceAreaPi (4 * 3.14159 / 3) := by
  refine ⟨by norm_num, ?_⟩
  have hpi : (0 : ℝ) < Real.pi := Real.pi_pos
  have ha : (3.14159 : ℝ) < Real.pi := lt_trans (by norm_num) Real.pi_gt_d6
  have harg : (4 * 3.14159 / 3 : ℝ) / ((4 / 3) * Real.pi) = 3.14159 / Real.pi := by
    field_simp
    ring
  have ht0 : (0 : ℝ) < 3.14159 / Real.pi := by positivity
  have ht1 : (3.14159 : ℝ) / Real.pi < 1 := (div_lt_one hpi).mpr ha
  apply ne_of_lt
  rw [surfaceArea_at_anchor]
  simp only [specSurfaceAreaPi]
  rw [harg, cbrt_eq_rpow ht0.le]
  have hsq : ((((3.14159 : ℝ) / Real.pi) ^ ((1 : ℝ) / 3)) : ℝ) ^ (2 : ℕ) =
      ((3.14159 : ℝ) / Real.pi) ^ ((2 : ℝ) / 3) := by
    rw [← Real.rpow_natCast ((((3.14159 : ℝ) / Real.pi) ^ ((1 : ℝ) / 3))) 2,
      ← Real.rpow_mul ht0.le]
    norm_num
  rw [hsq]
  have hkey : (3.14159 : ℝ) / Real.pi < ((3.14159 : ℝ) / Real.pi) ^ ((2 : ℝ) / 3) := by
    calc (3.14159 : ℝ) / Real.pi
        = ((3.14159 : ℝ) / Real.pi) ^ ((1 : ℝ)) := (Real.rpow_one _).symm
      _ < ((3.14159 : ℝ) / Real.pi) ^ ((2 : ℝ) / 3) :=
          Real.rpow_lt_rpow_of_exponent_gt ht0 ht1 (by norm_num)
  calc (4 : ℝ) * 3.14159
      = 4 * Real.pi * ((3.14159 : ℝ) / Real.pi) := by
        field_simp
        ring
    _ < 4 * Real.pi * (((3.14159 : ℝ) / Real.pi) ^ ((2 : ℝ) / 3)) :=
        mul_lt_mul_of_pos_left hkey (by positivity)

/-- C6 amended: for every positive volume, calculateSurfaceArea computes
the spec formula with the literal 3.14159 in place of pi: radius =
cbrt(volume / ((4/3)*3.14159)) and area = 4*3.14159*radius^2. -/
theorem surfaceArea_matches_literal_pi_formula (v : ℝ) (hv : 0 < v) :
    calculateSurfaceArea v = specSurfaceAreaLiteral v := rfl

/-- Witness for the amended C6 theorem at volume 1. -/
theorem surfaceArea_matches_literal_pi_formula_witness :
    (0 : ℝ) < 1 ∧ calculateSurfaceArea 1 = specSurfaceAreaLiteral 1 :=
  ⟨by norm_num, surfaceArea_matches_literal_pi_formula 1 (by norm_num)⟩

/-- C7 counterexample: on the strictly negative anchor volume the code
silently returns the ordinary positive area 4*3.14159: no error, no NaN,
and not 0. -/
theorem surfaceArea_positive_on_negative_volume :
    (-(4 * 3.14159 / 3) : ℝ) ≤ 0 ∧
    calculateSurfaceArea (-(4 * 3.14159 / 3)) = 4 * 3.14159 ∧
    (0 : ℝ) < calculateSurfaceArea (-(4 * 3.14159 / 3)) := by
  have harg : (-(4 * 3.14159 / 3) : ℝ) / ((4 / 3) * 3.14159) = -1 := by norm_num
  have hc : cbrt (-1) = -1 := by
    unfold cbrt
    rw [if_pos (by norm_num : (-1 : ℝ) < 0)]
    norm_num
  have heq : calculateSurfaceArea (-(4 * 3.14159 / 3)) = 4 * 3.14159 := by
    simp only [calculateSurfaceArea]
    rw [harg, hc]
    norm_num
  exact ⟨by norm_num, heq, by rw [heq]; norm_num⟩

/-- C7 amended: the code policy for non-positive volume is: volume 0 gives
area 0, and every strictly negative volume silently gives a strictly
positive ordinary area (the formula applied to the negative real cube
root); there is no error signalling. -/
theorem surfaceArea_nonpositive_volume_policy :
    calculateSurfaceArea 0 = 0 ∧ ∀ v : ℝ, v < 0 → 0 < calculateSurfaceArea v := by
  constructor
  · simp only [calculateSurfaceArea]
    norm_num [cbrt_zero]
  · intro v hv
    have hc : (0 : ℝ) < (4 / 3) * 3.14159 := by norm_num
    have harg : v / ((4 / 3) * 3.14159) < 0 := div_neg_of_neg_of_pos hv hc
    simp only [calculateSurfaceArea]
    have h1 : cbrt (v / ((4 / 3) * 3.14159)) =
        -((-(v / ((4 / 3) * 3.14159))) ^ ((1 : ℝ) / 3)) := by
      unfold cbrt
      rw [if_pos harg]
    rw [h1]
    have h2 : (0 : ℝ) < (-(v / ((4 / 3) * 3.14159))) ^ ((1 : ℝ) / 3) :=
      Real.rpow_pos_of_pos (by linarith) _
    have h3 : (-((-(v / ((4 / 3) * 3.14159))) ^ ((1 : ℝ) / 3))) ^ (2 : ℕ) =
        ((-(v / ((4 / 3) * 3.14159))) ^ ((1 : ℝ) / 3)) ^ (2 : ℕ) := by
      ring
    rw [h3]
    have h4 := pow_pos h2 2
    nlinarith

/-- The instantaneous rate recomputed from a balance, namely
calculateEmissionRate applied to the surface area of that balance and the
balance as temperature, is strictly increasing in the balance on positive
balances. -/
theorem emissionRate_recompute_strictMono {x y : ℝ} (hx : 0 < x) (hxy : x < y) :
    V2.calculateEmissionRate (calculateSurfaceArea x) x <
      V2.calculateEmissionRate (calculateSurfaceArea y) y := by
  have hc : (0 : ℝ) < (4 / 3) * 3.14159 := by norm_num
  have hdivlt : x / ((4 / 3) * 3.14159) < y / ((4 / 3) * 3.14159) :=
    (div_lt_div_right hc).mpr hxy
  have hdiv0 : (0 : ℝ) < x / ((4 / 3) * 3.14159) := div_pos hx hc
  have h1 : cbrt (x / ((4 / 3) * 3.14159)) < cbrt (y / ((4 / 3) * 3.14159)) :=
    cbrt_lt_cbrt hdiv0.le hdivlt
  have h1p : (0 : ℝ) < cbrt (x / ((4 / 3) * 3.14159)) := cbrt_pos hdiv0
  have hsq : cbrt (x / ((4 / 3) * 3.14159)) ^ 2 < cbrt (y / ((4 / 3) * 3.14159)) ^ 2 :=
    pow_lt_pow_left h1 h1p.le (by norm_num)
  have hx4 : x ^ 4 < y ^ 4 := pow_lt_pow_left hxy hx.le (by norm_num)
  have hσ : (0 : ℝ) < STEFAN_BOLTZMAN_CONSTANT := by norm_num [STEFAN_BOLTZMAN_CONSTANT]
  simp only [V2.calculateEmissionRate, calculateSurfaceArea]
  rw [div_lt_div_right (by norm_num : (0 : ℝ) < 4.65e20)]
  have hAx : 4 * 3.14159 * cbrt (x / ((4 / 3) * 3.14159)) ^ 2 <
      4 * 3.14159 * cbrt (y / ((4 / 3) * 3.14159)) ^ 2 :=
    mul_lt_mul_of_pos_left hsq (by norm_num)
  exact mul_lt_mul'' (mul_lt_mul_of_pos_left hAx hσ) hx4
    (mul_nonneg hσ.le (by positivity)) (pow_nonneg hx.le 4)

/-- C9 counterexample: starting from initializeSourceAccount at the anchor
supply and advancing one million seconds, the stored emissionRate field
(still the construction-time value) differs from the instantaneous rate
recomputed from the updated balance. -/
theorem emissionRate_stale_after_advance :
    ((V2.updateSourceAndEnvironment (V2.initializeSourceAccount (4 * 3.14159 / 3) 0)
        V2.initializeEnvironment 1e9 []).1).emissionRate ≠
      V2.calculateEmissionRate
        (calculateSurfaceArea
          (((V2.updateSourceAndEnvironment (V2.initializeSourceAccount (4 * 3.14159 / 3) 0)
              V2.initializeEnvironment 1e9 []).1).balance))
        (((V2.updateSourceAndEnvironment (V2.initializeSourceAccount (4 * 3.14159 / 3) 0)
            V2.initializeEnvironment 1e9 []).1).balance) := by
  have hrate : ((V2.updateSourceAndEnvironment (V2.initializeSourceAccount (4 * 3.14159 / 3) 0)
      V2.initializeEnvironment 1e9 []).1).emissionRate =
      STEFAN_BOLTZMAN_CONSTANT * (4 * 3.14159) * (4 * 3.14159 / 3) ^ 4 / 4.65e20 := by
    simp only [V2.updateSourceAndEnvironment, V2.initializeSourceAccount,
      V2.calculateEmissionRate]
    rw [surfaceArea_at_anchor]
  have hbal : ((V2.updateSourceAndEnvironment (V2.initializeSourceAccount (4 * 3.14159 / 3) 0)
      V2.initializeEnvironment 1e9 []).1).balance =
      4 * 3.14159 / 3 -
        STEFAN_BOLTZMAN_CONSTANT * (4 * 3.14159) * (4 * 3.14159 / 3) ^ 4 / 4.65e20 *
          ((1e9 - 0) / 1000) := by
    simp only [V2.updateSourceAndEnvironment, V2.initializeSourceAccount,
      V2.calculateEmissionRate]
    rw [surfaceArea_at_anchor]
  have hb1pos : (0 : ℝ) <
      4 * 3.14159 / 3 -
        STEFAN_BOLTZMAN_CONSTANT * (4 * 3.14159) * (4 * 3.14159 / 3) ^ 4 / 4.65e20 *
          ((1e9 - 0) / 1000) := by
    norm_num [STEFAN_BOLTZMAN_CONSTANT]
  have hb1lt :
      4 * 3.14159 / 3 -
        STEFAN_BOLTZMAN_CONSTANT * (4 * 3.14159) * (4 * 3.14159 / 3) ^ 4 / 4.65e20 *
          ((1e9 - 0) / 1000) < 4 * 3.14159 / 3 := by
    norm_num [STEFAN_BOLTZMAN_CONSTANT]
  rw [hrate, hbal]
  have h2 := emissionRate_recompute_strictMono hb1pos hb1lt
  have h3 : V2.calculateEmissionRate (calculateSurfaceArea (4 * 3.14159 / 3)) (4 * 3.14159 / 3) =
      STEFAN_BOLTZMAN_CONSTANT * (4 * 3.14159) * (4 * 3.14159 / 3) ^ 4 / 4.65e20 := by
    simp only [V2.calculateEmissionRate]
    rw [surfaceArea_at_anchor]
  exact ne_of_gt (h3 ▸ h2)

/-- For a uniform draw strictly inside (0, 1) and positive kappa, the power
transform u ^ (-1/kappa) - 1 used by kappaRandom is strictly positive. -/
theorem kappa_transform_pos {kappa u : ℝ} (hk : 0 < kappa) (h0 : 0 < u) (h1 : u < 1) :
    0 < u ^ (-1 / kappa) - 1 := by
  have hexp : (-1 : ℝ) / kappa < 0 := div_neg_of_neg_of_pos (by norm_num) hk
  have hgt : 1 < u ^ (-1 / kappa) :=
    (Real.one_lt_rpow_iff_of_pos h0).mpr (Or.inr ⟨h1, hexp⟩)
  linarith

/-- Every sample kappaRandom produces from draws strictly inside (0, 1)
with positive kappa is strictly positive. -/
theorem kappaRandom_mem_pos {kappa : ℝ} (hk : 0 < kappa) {draws : List (ℝ × ℝ × ℝ)}
    (hd : ∀ d ∈ draws, goodTriple d) :
    ∀ x ∈ V2.kappaRandom kappa draws, 0 < x := by
  intro x hx
  simp only [V2.kappaRandom, List.mem_map] at hx
  obtain ⟨d, hdm, rfl⟩ := hx
  obtain ⟨hm1, hm2, hm3⟩ := hd d hdm
  obtain ⟨h10, h11⟩ := Set.mem_Ioo.mp hm1
  obtain ⟨h20, h21⟩ := Set.mem_Ioo.mp hm2
  obtain ⟨h30, h31⟩ := Set.mem_Ioo.mp hm3
  have t1 := kappa_transform_pos hk h10 h11
  have t2 := kappa_transform_pos hk h20 h21
  have t3 := kappa_transform_pos hk h30 h31
  linarith

/-- Left fold of addition over a list, from any start, is the start plus
the list sum. -/
theorem foldl_add_eq_add_sum (l : List ℝ) :
    ∀ a : ℝ, l.foldl (fun sum val => sum + val) a = a + l.sum := by
  induction l with
  | nil =>
    intro a
    simp
  | cons x xs ih =>
    intro a
    rw [List.foldl_cons, ih, List.sum_cons]
    ring

/-- Mapping division by a constant over a list divides the sum. -/
theorem sum_map_div (l : List ℝ) (c : ℝ) :
    (l.map fun val => val / c).sum = l.sum / c := by
  induction l with
  | nil => simp
  | cons x xs ih =>
    rw [List.map_cons, List.sum_cons, List.sum_cons, ih]
    ring

/-- The sum of a pointwise lvl + val * e combination of two equally long
lists. -/
theorem sum_zipWith_add_mul (e : ℝ) :
    ∀ L N : List ℝ, L.length = N.length →
      (List.zipWith (fun lvl val => lvl + val * e) L N).sum = L.sum + N.sum * e := by
  intro L
  induction L with
  | nil =>
    intro N h
    cases N with
    | nil => simp
    | cons b N2 => simp at h
  | cons a L2 ih =>
    intro N h
    cases N with
    | nil => simp at h
    | cons b N2 =>
      simp only [List.zipWith_cons_cons, List.sum_cons]
      rw [ih N2 (by simpa using h)]
      ring

/-- C10: for every positive kappa and every draw stream strictly inside
the open interval (0, 1), each raw kappaRandom sample is strictly
positive; hence for a nonempty stream the normalization divisor (the foldl
sum the update computes) is strictly positive and every normalized weight
is strictly positive, so the division needs no fallback. -/
theorem kappaRandom_samples_positive (kappa : ℝ) (hk : 0 < kappa)
    (draws : List (ℝ × ℝ × ℝ)) (hd : ∀ d ∈ draws, goodTriple d) :
    (∀ x ∈ V2.kappaRandom kappa draws, 0 < x) ∧
    (draws ≠ [] →
      0 < (V2.kappaRandom kappa draws).foldl (fun sum val => sum + val) 0 ∧
      ∀ w ∈ (V2.kappaRandom kappa draws).map
          (fun val => val / (V2.kappaRandom kappa draws).foldl (fun sum val => sum + val) 0),
        0 < w) := by
  have hpos := kappaRandom_mem_pos hk hd
  refine ⟨hpos, fun hne => ?_⟩
  have hlist : V2.kappaRandom kappa draws ≠ [] := by
    simp only [V2.kappaRandom, ne_eq, List.map_eq_nil_iff]
    exact hne
  have hsum : 0 < (V2.kappaRandom kappa draws).sum := List.sum_pos _ hpos hlist
  have hfold : (V2.kappaRandom kappa draws).foldl (fun sum val => sum + val) 0 =
      (V2.kappaRandom kappa draws).sum := by
    rw [foldl_add_eq_add_sum]
    ring
  refine ⟨by rw [hfold]; exact hsum, ?_⟩
  intro w hw
  simp only [List.mem_map] at hw
  obtain ⟨v, hv, rfl⟩ := hw
  rw [hfold]
  exact div_pos (hpos v hv) hsum

/-- Witness for the C10 theorem: kappa 3.5 and a single triple of draws
equal to 1/2. -/
theorem kappaRandom_samples_positive_witness :
    (0 : ℝ) < 3.5 ∧
    (∀ d ∈ [((1 / 2 : ℝ), (1 / 2 : ℝ), (1 / 2 : ℝ))], goodTriple d) ∧
    ((∀ x ∈ V2.kappaRandom 3.5 [((1 / 2 : ℝ), (1 / 2 : ℝ), (1 / 2 : ℝ))], 0 < x) ∧
      ([((1 / 2 : ℝ), (1 / 2 : ℝ), (1 / 2 : ℝ))] ≠ ([] : List (ℝ × ℝ × ℝ)) →
        0 < (V2.kappaRandom 3.5 [((1 / 2 : ℝ), (1 / 2 : ℝ), (1 / 2 : ℝ))]).foldl
            (fun sum val => sum + val) 0 ∧
        ∀ w ∈ (V2.kappaRandom 3.5 [((1 / 2 : ℝ), (1 / 2 : ℝ), (1 / 2 : ℝ))]).map
            (fun val =>
              val / (V2.kappaRandom 3.5 [((1 / 2 : ℝ), (1 / 2 : ℝ), (1 / 2 : ℝ))]).foldl
                (fun sum val => sum + val) 0),
          0 < w)) := by
  have hgood : ∀ d ∈ [((1 / 2 : ℝ), (1 / 2 : ℝ), (1 / 2 : ℝ))], goodTriple d := by
    intro d hd
    simp only [List.mem_singleton] at hd
    subst hd
    norm_num [goodTriple, Set.mem_Ioo]
  exact ⟨by norm_num, hgood,
    kappaRandom_samples_positive 3.5 (by norm_num) _ hgood⟩

/-- One advance of version 1.0.2 with 100 in-range draw triples keeps the
levels array at length 100 and preserves the partition property that the
sum of levels equals the environment balance. -/
theorem update_preserves_level_partition (s : SourceAccount) (e : V2.Environment) (t : ℝ)
    (draws : List (ℝ × ℝ × ℝ)) (hlen : draws.length = 100)
    (hgood : ∀ d ∈ draws, goodTriple d)
    (hL : e.levels.length = 100) (hsum : e.levels.sum = e.balance) :
    ((V2.updateSourceAndEnvironment s e t draws).2).levels.length = 100 ∧
    ((V2.updateSourceAndEnvironment s e t draws).2).levels.sum =
      ((V2.updateSourceAndEnvironment s e t draws).2).balance := by
  have hk : (0 : ℝ) < V2.KAPPA := by norm_num [V2.KAPPA]
  have hpos := kappaRandom_mem_pos hk hgood
  have hslen : (V2.kappaRandom V2.KAPPA draws).length = 100 := by
    simp [V2.kappaRandom, hlen]
  have hne : V2.kappaRandom V2.KAPPA draws ≠ [] := by
    intro hcon
    rw [hcon] at hslen
    simp at hslen
  have hsumpos : 0 < (V2.kappaRandom V2.KAPPA draws).sum := List.sum_pos _ hpos hne
  have hfold : (V2.kappaRandom V2.KAPPA draws).foldl (fun sum val => sum + val) 0 =
      (V2.kappaRandom V2.KAPPA draws).sum := by
    rw [foldl_add_eq_add_sum]
    ring
  simp only [V2.updateSourceAndEnvironment]
  constructor
  · simp [List.length_zipWith, List.length_map, hslen, hL]
  · rw [List.drop_eq_nil_of_le (by simp [List.length_map, hslen, hL]), List.append_nil]
    rw [sum_zipWith_add_mul _ _ _ (by simp [List.length_map, hslen, hL])]
    rw [sum_map_div, hfold, div_self hsumpos.ne', hsum]
    ring

/-- Over any sequence of advance calls whose draw streams have length 100
and stay strictly inside (0, 1), the partition property that the sum of
the environment levels equals the environment balance is invariant. -/
theorem runAdvances_partition_invariant :
    ∀ (calls : List (ℝ × List (ℝ × ℝ × ℝ))) (s : SourceAccount) (e : V2.Environment),
      (∀ c ∈ calls, c.2.length = 100 ∧ ∀ d ∈ c.2, goodTriple d) →
      e.levels.length = 100 → e.levels.sum = e.balance →
      ((V2.runAdvances s e calls).2).levels.sum = ((V2.runAdvances s e calls).2).balance := by
  intro calls
  induction calls with
  | nil =>
    intro s e _ _ hsum
    simpa [V2.runAdvances] using hsum
  | cons c rest ih =>
    intro s e hc hL hsum
    have h1 := hc c (by simp)
    have h2 := update_preserves_level_partition s e c.1 c.2 h1.1 h1.2 hL hsum
    simp only [V2.runAdvances]
    exact ih _ _ (fun c2 hc2 => hc c2 (by simp [hc2])) h2.1 h2.2

/-- C5: with level distribution enabled and draws strictly inside (0, 1),
the levels partition the environment balance: each advance spreads exactly
the emission amount over the levels because the normalized weights sum to
1, so starting from initializeEnvironment (zero balance, 100 zero levels),
after any sequence of advance calls the sum of environment.levels equals
environment.balance exactly. -/
theorem run_levels_sum_eq_balance (calls : List (ℝ × List (ℝ × ℝ × ℝ))) (s : SourceAccount)
    (h : ∀ c ∈ calls, c.2.length = 100 ∧ ∀ d ∈ c.2, goodTriple d) :
    ((V2.runAdvances s V2.initializeEnvironment calls).2).levels.sum =
      ((V2.runAdvances s V2.initializeEnvironment calls).2).balance :=
  runAdvances_partition_invariant calls s V2.initializeEnvironment h
    (by simp [V2.initializeEnvironment])
    (by simp [V2.initializeEnvironment])

/-- Witness for the C5 theorem: one advance from the initial state with
100 draw triples all equal to 1/2. -/
theorem run_levels_sum_eq_balance_witness :
    (∀ c ∈ [((1000 : ℝ), List.replicate 100 ((1 / 2 : ℝ), (1 / 2 : ℝ), (1 / 2 : ℝ)))],
      c.2.length = 100 ∧ ∀ d ∈ c.2, goodTriple d) ∧
    ((V2.runAdvances (V2.initializeSourceAccount 1000 0) V2.initializeEnvironment
        [((1000 : ℝ), List.replicate 100 ((1 / 2 : ℝ), (1 / 2 : ℝ), (1 / 2 : ℝ)))]).2).levels.sum =
      ((V2.runAdvances (V2.initializeSourceAccount 1000 0) V2.initializeEnvironment
          [((1000 : ℝ), List.replicate 100 ((1 / 2 : ℝ), (1 / 2 : ℝ), (1 / 2 : ℝ)))]).2).balance := by
  have hh : ∀ c ∈ [((1000 : ℝ), List.replicate 100 ((1 / 2 : ℝ), (1 / 2 : ℝ), (1 / 2 : ℝ)))],
      c.2.length = 100 ∧ ∀ d ∈ c.2, goodTriple d := by
    intro c hc
    simp only [List.mem_singleton] at hc
    subst hc
    refine ⟨by simp, ?_⟩
    intro d hd
    simp only [List.mem_replicate] at hd
    rw [hd.2]
    norm_num [goodTriple, Set.mem_Ioo]
  exact ⟨hh, run_levels_sum_eq_balance _ _ hh⟩

/-- Witness for the amended C7 theorem at volume -1. -/
theorem surfaceArea_nonpositive_volume_policy_witness :
    (-1 : ℝ) < 0 ∧ 0 < calculateSurfaceArea (-1) :=
  ⟨by norm_num, surfaceArea_nonpositive_volume_policy.2 (-1) (by norm_num)⟩
